import Mathlib

/-!
# SoundFilePlayer: the transport controller of `MainContentComponent`

A shallow embedding of `Source/SoundFilePlayer.h`.

* The component is a record of the members the handlers read and write.
* `juce::AudioTransportSource` is an external collaborator.  Calls made on it are
  appended to a call log (`transportCalls`); what it answers when queried
  (`isPlaying()`, `getCurrentPosition()`, `getLengthInSeconds()`) is an argument of
  the handler that asks.
* `double` values are rationals (every finite double is one); `int` values are
  integers, with C++ truncating division and remainder (`Int.tdiv`, `Int.tmod`).
-/

namespace SoundFilePlayer

/-! ## Data model -/

/-- The `TransportState` enumeration. -/
inductive TransportState
  | Stopped
  | Starting
  | Playing
  | Pausing
  | Paused
  | Stopping
  deriving DecidableEq

/-- A `juce::File`, identified by its full path. -/
structure File where
  fullPath : String
  deriving DecidableEq

/-- The default-constructed `File{}` that a cancelled chooser returns. -/
def File.empty : File := ⟨""⟩

/-- A `juce::AudioFormatReader` as far as the component looks into it. -/
structure AudioFormatReader where
  sampleRate : ℚ
  deriving DecidableEq

/-- The calls the component makes on `transportSource` that change it. -/
inductive TransportCall
  | setSource (reader : AudioFormatReader)
  | setPosition (newPosition : ℚ)
  | start
  | stop
  deriving DecidableEq

/-- The two broadcasters the component listens to. -/
inductive ChangeBroadcaster
  | transportSource
  | thumbnail
  deriving DecidableEq

/-- The members of `MainContentComponent` the handlers touch.  `timerInterval` is
`some ms` while the `juce::Timer` base is running; `cursorUpdates` counts the calls of
`changeCursorPosition()` and `repaints` those of `repaint()`: what such a call draws is
given by `cursorText` and `cursorMarkerBounds` below. -/
structure MainContentComponent where
  state : TransportState
  playButtonText : String
  playButtonEnabled : Bool
  stopButtonText : String
  stopButtonEnabled : Bool
  readerSource : Option AudioFormatReader
  thumbnailSource : Option File
  timerInterval : Option Nat
  transportCalls : List TransportCall
  cursorUpdates : Nat
  repaints : Nat
  deriving DecidableEq

/-- The component as the constructor leaves it. -/
def MainContentComponent.new : MainContentComponent where
  state := .Stopped
  playButtonText := "Play"
  playButtonEnabled := false
  stopButtonText := "Stop"
  stopButtonEnabled := false
  readerSource := none
  thumbnailSource := none
  timerInterval := none
  transportCalls := []
  cursorUpdates := 1
  repaints := 0

/-! ## Handlers -/

/-- A call of `changeCursorPosition()`, as seen by the controller. -/
def changeCursorPosition (c : MainContentComponent) : MainContentComponent :=
  { c with cursorUpdates := c.cursorUpdates + 1 }

/-- The inherited `juce::Timer::startTimer`. -/
def startTimer (intervalInMilliseconds : Nat) (c : MainContentComponent) :
    MainContentComponent :=
  { c with timerInterval := some intervalInMilliseconds }

/-- The inherited `juce::Timer::stopTimer`. -/
def stopTimer (c : MainContentComponent) : MainContentComponent :=
  { c with timerInterval := none }

/-- A call on `transportSource`, appended to the log. -/
def callTransport (call : TransportCall) (c : MainContentComponent) :
    MainContentComponent :=
  { c with transportCalls := c.transportCalls ++ [call] }

/-- The method `changeState (TransportState newState)`. -/
def changeState (newState : TransportState) (c : MainContentComponent) :
    MainContentComponent :=
  let c := { c with state := newState }
  match newState with
  | .Stopped =>
      stopTimer (changeCursorPosition (callTransport (.setPosition 0)
        { c with playButtonText := "Play", stopButtonText := "Stop",
                 stopButtonEnabled := false }))
  | .Starting => callTransport .start c
  | .Playing =>
      startTimer 200
        { c with playButtonText := "Pause", stopButtonText := "Stop",
                 stopButtonEnabled := true }
  | .Pausing => callTransport .stop c
  | .Paused => stopTimer (changeCursorPosition { c with playButtonText := "Resume" })
  | .Stopping => callTransport .stop c

/-- The callback that `openButtonClicked` hands to the file chooser, run on the
chooser's `result`; `createReaderFor` is `formatManager.createReaderFor`, with `none`
for a null reader. -/
def openButtonClicked (createReaderFor : File → Option AudioFormatReader) (result : File)
    (c : MainContentComponent) : MainContentComponent :=
  if result ≠ File.empty then
    match createReaderFor result with
    | some reader =>
        changeState .Stopped
          { callTransport (.setSource reader) c with
            playButtonEnabled := true
            thumbnailSource := some result
            readerSource := some reader }
    | none => c
  else c

/-- The method `playButtonClicked`. -/
def playButtonClicked (c : MainContentComponent) : MainContentComponent :=
  if c.state = .Stopped ∨ c.state = .Paused then changeState .Starting c
  else if c.state = .Playing then changeState .Pausing c
  else c

/-- The method `stopButtonClicked`. -/
def stopButtonClicked (c : MainContentComponent) : MainContentComponent :=
  if c.state = .Paused then changeState .Stopped c
  else changeState .Stopping c

/-- The method `changeListenerCallback`; `isPlaying` is what
`transportSource.isPlaying()` answers during the call. -/
def changeListenerCallback (source : ChangeBroadcaster) (isPlaying : Bool)
    (c : MainContentComponent) : MainContentComponent :=
  let c :=
    if source = .transportSource then
      if isPlaying then changeState .Playing c
      else if c.state = .Stopping ∨ c.state = .Playing then changeState .Stopped c
      else if c.state = .Pausing then changeState .Paused c
      else c
    else c
  if source = .thumbnail then { c with repaints := c.repaints + 1 } else c

/-- The method `timerCallback`. -/
def timerCallback (c : MainContentComponent) : MainContentComponent :=
  changeCursorPosition c

/-! ## Event sequences -/

/-- What can happen to the component: the chooser delivers its result, a button is
clicked, a broadcaster reports a change, the timer fires. -/
inductive Event
  | openResult (result : File)
  | playClick
  | stopClick
  | change (source : ChangeBroadcaster) (isPlaying : Bool)
  | timer
  deriving DecidableEq

/-- One event.  A disabled button does not click and a stopped timer does not fire:
those give `none`. -/
def step (createReaderFor : File → Option AudioFormatReader) :
    Event → MainContentComponent → Option MainContentComponent
  | .openResult result, c => some (openButtonClicked createReaderFor result c)
  | .playClick, c => if c.playButtonEnabled then some (playButtonClicked c) else none
  | .stopClick, c => if c.stopButtonEnabled then some (stopButtonClicked c) else none
  | .change source isPlaying, c => some (changeListenerCallback source isPlaying c)
  | .timer, c => if c.timerInterval.isSome then some (timerCallback c) else none

/-- A sequence of events, from left to right. -/
def run (createReaderFor : File → Option AudioFormatReader) :
    List Event → MainContentComponent → Option MainContentComponent
  | [], c => some c
  | e :: es, c => (step createReaderFor e c).bind (run createReaderFor es)

/-- The states some event sequence reaches from the constructed component. -/
def Reachable (createReaderFor : File → Option AudioFormatReader)
    (c : MainContentComponent) : Prop :=
  ∃ es, run createReaderFor es MainContentComponent.new = some c

/-! ## Layout, cursor label and cursor marker -/

/-- A `juce::Rectangle<int>`. -/
structure Rectangle where
  x : Int
  y : Int
  w : Int
  h : Int
  deriving DecidableEq

/-- The accessor `Rectangle::getX`. -/
def Rectangle.getX (r : Rectangle) : Int := r.x

/-- The accessor `Rectangle::getY`. -/
def Rectangle.getY (r : Rectangle) : Int := r.y

/-- The accessor `Rectangle::getWidth`. -/
def Rectangle.getWidth (r : Rectangle) : Int := r.w

/-- The accessor `Rectangle::getHeight`. -/
def Rectangle.getHeight (r : Rectangle) : Int := r.h

/-- The accessor `Rectangle::getRight`, the x coordinate of the right-hand edge. -/
def Rectangle.getRight (r : Rectangle) : Int := r.x + r.w

/-- The layout members `hgap`, `vgap`, `h`, `w`, with the component's `getHeight()`. -/
structure Layout where
  hgap : Int
  vgap : Int
  h : Int
  w : Int
  height : Int
  deriving DecidableEq

/-- The method `resized`, for a component of the given width and height. -/
def resized (width height : Int) : Layout :=
  let hgap := 10
  let vgap := 6
  { hgap := hgap
    vgap := vgap
    h := Int.tdiv height 5 - 2 * vgap
    w := width - 2 * hgap
    height := height }

/-- The rectangle `thumbnailBounds` that `paint` draws the waveform into and that
`changeCursorPosition` builds again. -/
def thumbnailBounds (l : Layout) : Rectangle :=
  let y := l.vgap + 4 * (l.h + l.vgap)
  ⟨l.hgap, y, l.w, l.height - l.vgap * 2 - y⟩

/-- The conversion `(int) x` of a double: truncation toward zero, defined when the
truncated value is an `int`. -/
def toInt (x : ℚ) : Option Int :=
  if -(2 : ℚ) ^ 31 - 1 < x ∧ x < (2 : ℚ) ^ 31 then some (Int.tdiv x.num x.den) else none

/-- The text `changeCursorPosition` gives to the `cursor` label; `toString` on an
integer stands for `juce::String (int)`, its decimal digits. -/
def cursorText (cursor_position transport_length : ℚ) : Option String := do
  let p ← toInt cursor_position
  let t ← toInt transport_length
  pure (toString (Int.tmod (Int.tdiv p 60) 60) ++ ":" ++ toString (Int.tmod p 60) ++ " / " ++
        toString (Int.tmod (Int.tdiv t 60) 60) ++ ":" ++ toString (Int.tmod t 60))

/-- The quotient `cursor_position / transport_length` of `changeCursorPosition`; on
doubles a zero divisor gives an infinity or a NaN, here `none`. -/
def cursor_position_percent (cursor_position transport_length : ℚ) : Option ℚ :=
  if transport_length = 0 then none else some (cursor_position / transport_length)

/-- The first argument of `cursorMarker.setBounds` in `changeCursorPosition`, as the
double it is computed as, before its conversion to `int`. -/
def cursorMarkerLeft (l : Layout) (cursor_position transport_length : ℚ) : Option ℚ :=
  (cursor_position_percent cursor_position transport_length).map fun percent =>
    ((thumbnailBounds l).getX : ℚ) + ((thumbnailBounds l).getRight : ℚ) * percent - 2

/-- The bounds `changeCursorPosition` gives to `cursorMarker`. -/
def cursorMarkerBounds (l : Layout) (cursor_position transport_length : ℚ) :
    Option Rectangle := do
  let left ← cursorMarkerLeft l cursor_position transport_length
  let x ← toInt left
  pure ⟨x, (thumbnailBounds l).getY, 4, (thumbnailBounds l).getHeight⟩

/-- The x coordinate of the middle of the 4 pixel wide marker, before conversion. -/
def cursorMarkerCentre (l : Layout) (cursor_position transport_length : ℚ) : Option ℚ :=
  (cursorMarkerLeft l cursor_position transport_length).map (· + 2)

/-! ## Concrete inputs -/

/-- A format manager that reads every file, at 44.1 kHz. -/
def readsAll : File → Option AudioFormatReader := fun _ => some ⟨44100⟩

/-- A format manager that reads no file. -/
def readsNone : File → Option AudioFormatReader := fun _ => none

/-- The file `song.wav`. -/
def songWav : File := ⟨"song.wav"⟩

/-- The fresh component after `song.wav` has been opened. -/
def loaded : MainContentComponent :=
  openButtonClicked readsAll songWav MainContentComponent.new

/-- The component playing `song.wav`: opened, Play clicked, the transport source
reporting that it plays. -/
def playing : MainContentComponent :=
  changeListenerCallback .transportSource true (playButtonClicked loaded)

/-- An event that loads a track: the chooser delivers a file the format manager has a
reader for. -/
def Event.loadsTrack (createReaderFor : File → Option AudioFormatReader) : Event → Bool
  | .openResult result => decide (result ≠ File.empty) && (createReaderFor result).isSome
  | _ => false

/-! ## Invariants -/

/-- The relation between state and Stop button that every event keeps: enabled in
Playing, Pausing, Paused and Stopping, disabled in Stopped. -/
def StopButtonInv (c : MainContentComponent) : Prop :=
  ((c.state = .Playing ∨ c.state = .Pausing ∨ c.state = .Paused ∨ c.state = .Stopping) →
    c.stopButtonEnabled = true) ∧
  (c.state = .Stopped → c.stopButtonEnabled = false)

/-- The relation between state and timer that every event keeps: running in Playing
and Pausing, stopped in Stopped, Starting and Paused. -/
def TimerInv (c : MainContentComponent) : Prop :=
  ((c.state = .Playing ∨ c.state = .Pausing) → c.timerInterval.isSome = true) ∧
  ((c.state = .Stopped ∨ c.state = .Starting ∨ c.state = .Paused) →
    c.timerInterval.isSome = false)

/-- The relation between Play button and `readerSource` that every event keeps. -/
def PlayButtonInv (c : MainContentComponent) : Prop :=
  c.playButtonEnabled = true ↔ c.readerSource.isSome = true

/-! ## The button handlers and the change callback (C1 to C4) -/

/-- C1, as stated, fails: with `song.wav` loaded and the state Stopped,
`playButtonClicked` returns in state Starting, not Playing, and when the transport
source then reports that it is not playing the state stays Starting. -/
theorem playButtonClicked_loaded_not_Playing :
    loaded.state = .Stopped ∧ loaded.readerSource.isSome = true ∧
    (playButtonClicked loaded).state = .Starting ∧
    (playButtonClicked loaded).state ≠ .Playing ∧
    (changeListenerCallback .transportSource false (playButtonClicked loaded)).state
      ≠ .Playing := by
  decide

/-- C1, amended: from Stopped or Paused, `playButtonClicked` commits Starting and its
only call on the transport source is one `start`; the change callback of the transport
source, reporting that it plays, then commits Playing (button texts, Stop enabled,
timer at 200 ms) and calls the transport source no further. -/
theorem playButtonClicked_from_Stopped_or_Paused (c : MainContentComponent)
    (h : c.state = .Stopped ∨ c.state = .Paused) :
    playButtonClicked c =
      { c with state := .Starting, transportCalls := c.transportCalls ++ [.start] } ∧
    changeListenerCallback .transportSource true (playButtonClicked c) =
      { c with state := .Playing
               playButtonText := "Pause"
               stopButtonText := "Stop"
               stopButtonEnabled := true
               timerInterval := some 200
               transportCalls := c.transportCalls ++ [.start] } := by
  simp [playButtonClicked, changeListenerCallback, changeState, callTransport, startTimer, h]

/-- C1, amended, at the component that has just loaded `song.wav`. -/
theorem playButtonClicked_from_Stopped_or_Paused_witness :
    (loaded.state = .Stopped ∨ loaded.state = .Paused) ∧
    (changeListenerCallback .transportSource true (playButtonClicked loaded)).state
      = .Playing ∧
    (changeListenerCallback .transportSource true (playButtonClicked loaded)).transportCalls
      = loaded.transportCalls ++ [.start] :=
  ⟨by decide,
   by rw [(playButtonClicked_from_Stopped_or_Paused loaded (by decide)).2],
   by rw [(playButtonClicked_from_Stopped_or_Paused loaded (by decide)).2]⟩

/-- C2, as stated, fails: while `song.wav` plays, `stopButtonClicked` returns in state
Stopping, not Stopped, having called `stop` but not `setPosition`; and when the
transport source then reports that it still plays the state becomes Playing. -/
theorem stopButtonClicked_playing_not_Stopped :
    playing.state = .Playing ∧
    (stopButtonClicked playing).state = .Stopping ∧
    (stopButtonClicked playing).state ≠ .Stopped ∧
    (stopButtonClicked playing).transportCalls = playing.transportCalls ++ [.stop] ∧
    (changeListenerCallback .transportSource true (stopButtonClicked playing)).state
      ≠ .Stopped := by
  decide

/-- C2, amended: from Paused, `stopButtonClicked` commits Stopped at once and its only
call on the transport source is one `setPosition (0.0)`, no `stop`.  From each of the
other five states it commits Stopping and its only call is one `stop`; the change
callback of the transport source, reporting that it does not play, then commits Stopped
and makes the one call `setPosition (0.0)`. -/
theorem stopButtonClicked_cases (c : MainContentComponent) :
    (c.state = .Paused →
      stopButtonClicked c =
        { c with state := .Stopped
                 playButtonText := "Play"
                 stopButtonText := "Stop"
                 stopButtonEnabled := false
                 timerInterval := none
                 cursorUpdates := c.cursorUpdates + 1
                 transportCalls := c.transportCalls ++ [.setPosition 0] }) ∧
    (c.state ≠ .Paused →
      stopButtonClicked c =
        { c with state := .Stopping, transportCalls := c.transportCalls ++ [.stop] } ∧
      changeListenerCallback .transportSource false (stopButtonClicked c) =
        { c with state := .Stopped
                 playButtonText := "Play"
                 stopButtonText := "Stop"
                 stopButtonEnabled := false
                 timerInterval := none
                 cursorUpdates := c.cursorUpdates + 1
                 transportCalls := c.transportCalls ++ [.stop, .setPosition 0] }) := by
  constructor
  · intro h
    simp [stopButtonClicked, changeState, callTransport, stopTimer, changeCursorPosition, h]
  · intro h
    simp [stopButtonClicked, changeListenerCallback, changeState, callTransport, stopTimer,
      changeCursorPosition, h]

/-- C2, amended, at the component playing `song.wav`. -/
theorem stopButtonClicked_cases_witness :
    playing.state ≠ .Paused ∧
    (changeListenerCallback .transportSource false (stopButtonClicked playing)).state
      = .Stopped ∧
    (changeListenerCallback .transportSource false
        (stopButtonClicked playing)).transportCalls
      = playing.transportCalls ++ [.stop, .setPosition 0] :=
  ⟨by decide,
   by rw [((stopButtonClicked_cases playing).2 (by decide)).2],
   by rw [((stopButtonClicked_cases playing).2 (by decide)).2]⟩

/-- C3, as stated, fails: while `song.wav` plays, `playButtonClicked` returns in state
Pausing, not Paused; and when the transport source then reports that it still plays
the state becomes Playing again. -/
theorem playButtonClicked_playing_not_Paused :
    playing.state = .Playing ∧
    (playButtonClicked playing).state = .Pausing ∧
    (playButtonClicked playing).state ≠ .Paused ∧
    (changeListenerCallback .transportSource true (playButtonClicked playing)).state
      ≠ .Paused := by
  decide

/-- C3, amended: from Playing, `playButtonClicked` commits Pausing and its only call on
the transport source is one `stop`; the change callback of the transport source,
reporting that it does not play, then commits Paused (Play button reading Resume, timer
stopped) and calls the transport source no further: `setPosition` is never called. -/
theorem playButtonClicked_from_Playing (c : MainContentComponent)
    (h : c.state = .Playing) :
    playButtonClicked c =
      { c with state := .Pausing, transportCalls := c.transportCalls ++ [.stop] } ∧
    changeListenerCallback .transportSource false (playButtonClicked c) =
      { c with state := .Paused
               playButtonText := "Resume"
               timerInterval := none
               cursorUpdates := c.cursorUpdates + 1
               transportCalls := c.transportCalls ++ [.stop] } := by
  simp [playButtonClicked, changeListenerCallback, changeState, callTransport, stopTimer,
    changeCursorPosition, h]

/-- C3, amended, at the component playing `song.wav`. -/
theorem playButtonClicked_from_Playing_witness :
    playing.state = .Playing ∧
    (changeListenerCallback .transportSource false (playButtonClicked playing)).state
      = .Paused ∧
    (changeListenerCallback .transportSource false
        (playButtonClicked playing)).transportCalls
      = playing.transportCalls ++ [.stop] :=
  ⟨by decide,
   by rw [(playButtonClicked_from_Playing playing (by decide)).2],
   by rw [(playButtonClicked_from_Playing playing (by decide)).2]⟩

/-- C4: on a change of the transport source, `changeListenerCallback` commits Playing
when the source plays; otherwise Stopped when the state was Stopping or Playing;
otherwise Paused when the state was Pausing; and otherwise (not playing, state Stopped,
Starting or Paused) it returns the component as it was. -/
theorem changeListenerCallback_transportSource (c : MainContentComponent)
    (isPlaying : Bool) :
    (isPlaying = true →
      changeListenerCallback .transportSource isPlaying c = changeState .Playing c ∧
      (changeListenerCallback .transportSource isPlaying c).state = .Playing) ∧
    (isPlaying = false → (c.state = .Stopping ∨ c.state = .Playing) →
      changeListenerCallback .transportSource isPlaying c = changeState .Stopped c ∧
      (changeListenerCallback .transportSource isPlaying c).state = .Stopped) ∧
    (isPlaying = false → c.state = .Pausing →
      changeListenerCallback .transportSource isPlaying c = changeState .Paused c ∧
      (changeListenerCallback .transportSource isPlaying c).state = .Paused) ∧
    (isPlaying = false →
      (c.state = .Stopped ∨ c.state = .Starting ∨ c.state = .Paused) →
      changeListenerCallback .transportSource isPlaying c = c) := by
  refine ⟨?_, ?_, ?_, ?_⟩
  · intro h
    simp [changeListenerCallback, changeState, startTimer, h]
  · intro h hs
    simp [changeListenerCallback, changeState, callTransport, stopTimer,
      changeCursorPosition, h, hs]
  · intro h hs
    simp [changeListenerCallback, changeState, stopTimer, changeCursorPosition, h, hs]
  · intro h hs
    rcases hs with hs | hs | hs <;> simp [changeListenerCallback, h, hs]

/-- C4 at the end of `song.wav`: the playing component, told by the transport source
that it no longer plays, is Stopped. -/
theorem changeListenerCallback_transportSource_witness :
    playing.state = .Playing ∧
    (changeListenerCallback .transportSource false playing).state = .Stopped :=
  ⟨by decide,
   ((changeListenerCallback_transportSource playing false).2.1 rfl
      (Or.inr (by decide))).2⟩

/-! ## Invariants of the reachable states (C5 to C7) -/

/-- Every event keeps `StopButtonInv`. -/
theorem stopButtonInv_step (createReaderFor : File → Option AudioFormatReader)
    (e : Event) (c c' : MainContentComponent) (h : StopButtonInv c)
    (hs : step createReaderFor e c = some c') : StopButtonInv c' := by
  obtain ⟨state, pt, pe, st, se, rs, ts, ti, tc, cu, rp⟩ := c
  cases e with
  | openResult result =>
      simp only [step, Option.some.injEq] at hs
      subst hs
      unfold openButtonClicked
      split
      · split
        · simp [StopButtonInv, changeState, callTransport, stopTimer, changeCursorPosition]
        · exact h
      · exact h
  | playClick =>
      cases state <;> cases pe <;>
        simp_all [step, StopButtonInv, playButtonClicked, changeState, callTransport]
      all_goals (subst hs; simp_all)
  | stopClick =>
      cases state <;> cases se <;>
        simp_all [step, StopButtonInv, stopButtonClicked, changeState, callTransport,
          stopTimer, changeCursorPosition]
      all_goals (subst hs; simp_all)
  | change source isPlaying =>
      cases state <;> cases source <;> cases isPlaying <;>
        simp_all [step, StopButtonInv, changeListenerCallback, changeState, callTransport,
          stopTimer, startTimer, changeCursorPosition]
      all_goals (subst hs; simp_all)
  | timer =>
      cases state <;> cases ti <;>
        simp_all [step, StopButtonInv, timerCallback, changeCursorPosition]
      all_goals (subst hs; simp_all)

/-- Every event keeps `TimerInv`. -/
theorem timerInv_step (createReaderFor : File → Option AudioFormatReader)
    (e : Event) (c c' : MainContentComponent) (h : TimerInv c)
    (hs : step createReaderFor e c = some c') : TimerInv c' := by
  obtain ⟨state, pt, pe, st, se, rs, ts, ti, tc, cu, rp⟩ := c
  cases e with
  | openResult result =>
      simp only [step, Option.some.injEq] at hs
      subst hs
      unfold openButtonClicked
      split
      · split
        · simp [TimerInv, changeState, callTransport, stopTimer, changeCursorPosition]
        · exact h
      · exact h
  | playClick =>
      cases state <;> cases pe <;>
        simp_all [step, TimerInv, playButtonClicked, changeState, callTransport]
      all_goals (subst hs; simp_all)
  | stopClick =>
      cases state <;> cases se <;>
        simp_all [step, TimerInv, stopButtonClicked, changeState, callTransport,
          stopTimer, changeCursorPosition]
      all_goals (subst hs; simp_all)
  | change source isPlaying =>
      cases state <;> cases source <;> cases isPlaying <;>
        simp_all [step, TimerInv, changeListenerCallback, changeState, callTransport,
          stopTimer, startTimer, changeCursorPosition]
      all_goals (subst hs; simp_all)
  | timer =>
      cases state <;> cases ti <;>
        simp_all [step, TimerInv, timerCallback, changeCursorPosition]
      all_goals (subst hs; simp_all)

/-- A property that holds of the constructed component and that every event keeps
holds of every reachable state. -/
theorem reachable_induction (createReaderFor : File → Option AudioFormatReader)
    (P : MainContentComponent → Prop)
    (hstep : ∀ e c c', P c → step createReaderFor e c = some c' → P c') :
    ∀ (es : List Event) (c c' : MainContentComponent),
      P c → run createReaderFor es c = some c' → P c' := by
  intro es
  induction es with
  | nil =>
      intro c c' hc hr
      simp only [run, Option.some.injEq] at hr
      exact hr ▸ hc
  | cons e es ih =>
      intro c c' hc hr
      simp only [run] at hr
      cases hstep1 : step createReaderFor e c with
      | none => simp [hstep1] at hr
      | some c1 =>
          rw [hstep1] at hr
          exact ih c1 c' (hstep e c c1 hc hstep1) hr

/-- C5, as stated, fails: open `song.wav`, play, pause, then click Play again (each
click followed by the transport source's report).  The state is Starting, which is
none of Playing, Pausing, Paused, Stopping, and the Stop button is enabled. -/
theorem stopButton_enabled_in_Starting :
    (run readsAll
        [.openResult songWav, .playClick, .change .transportSource true,
         .playClick, .change .transportSource false, .playClick]
        MainContentComponent.new).map (fun c => (c.state, c.stopButtonEnabled))
      = some (.Starting, true) := by
  decide

/-- C5, amended: in every reachable state the Stop button is enabled if the state is
Playing, Pausing, Paused or Stopping, and disabled if the state is Stopped.  (In
Starting it is as it was before the click on Play.) -/
theorem stopButton_reachable (createReaderFor : File → Option AudioFormatReader)
    (c : MainContentComponent) (h : Reachable createReaderFor c) :
    ((c.state = .Playing ∨ c.state = .Pausing ∨ c.state = .Paused ∨ c.state = .Stopping) →
      c.stopButtonEnabled = true) ∧
    (c.state = .Stopped → c.stopButtonEnabled = false) := by
  obtain ⟨es, hes⟩ := h
  exact reachable_induction createReaderFor StopButtonInv
    (stopButtonInv_step createReaderFor) es _ c
    ⟨by simp [MainContentComponent.new], by simp [MainContentComponent.new]⟩ hes

/-- C5, amended, at the component playing `song.wav`. -/
theorem stopButton_reachable_witness :
    Reachable readsAll playing ∧ playing.state = .Playing ∧
    playing.stopButtonEnabled = true :=
  ⟨⟨[.openResult songWav, .playClick, .change .transportSource true], by decide⟩,
   by decide,
   (stopButton_reachable readsAll playing
      ⟨[.openResult songWav, .playClick, .change .transportSource true], by decide⟩).1
     (Or.inl (by decide))⟩

/-- C6, as stated, fails: open `song.wav`, play, then click Play to pause.  The state
committed by `changeState` is Pausing, not Playing, and the timer still runs. -/
theorem timer_runs_in_Pausing :
    (run readsAll
        [.openResult songWav, .playClick, .change .transportSource true, .playClick]
        MainContentComponent.new).map (fun c => (c.state, c.timerInterval.isSome))
      = some (.Pausing, true) := by
  decide

/-- C6, amended: in every reachable state the timer runs if the state is Playing or
Pausing, and does not run if the state is Stopped, Starting or Paused.  (It is started
on entering Playing and stopped on entering Stopped or Paused; Stopping keeps it as it
was.) -/
theorem timer_reachable (createReaderFor : File → Option AudioFormatReader)
    (c : MainContentComponent) (h : Reachable createReaderFor c) :
    ((c.state = .Playing ∨ c.state = .Pausing) → c.timerInterval.isSome = true) ∧
    ((c.state = .Stopped ∨ c.state = .Starting ∨ c.state = .Paused) →
      c.timerInterval.isSome = false) := by
  obtain ⟨es, hes⟩ := h
  exact reachable_induction createReaderFor TimerInv
    (timerInv_step createReaderFor) es _ c
    ⟨by simp [MainContentComponent.new], by simp [MainContentComponent.new]⟩ hes

/-- C6, amended, at the component that has loaded `song.wav` and was told to play. -/
theorem timer_reachable_witness :
    Reachable readsAll (playButtonClicked loaded) ∧
    (playButtonClicked loaded).state = .Starting ∧
    (playButtonClicked loaded).timerInterval.isSome = false :=
  ⟨⟨[.openResult songWav, .playClick], by decide⟩,
   by decide,
   (timer_reachable readsAll (playButtonClicked loaded)
      ⟨[.openResult songWav, .playClick], by decide⟩).2 (Or.inr (Or.inl (by decide)))⟩

/-- The calls of `changeState` leave the Play button's enablement and `readerSource`
alone. -/
theorem changeState_playButton_readerSource (newState : TransportState)
    (c : MainContentComponent) :
    (changeState newState c).playButtonEnabled = c.playButtonEnabled ∧
    (changeState newState c).readerSource = c.readerSource := by
  cases newState <;>
    simp [changeState, callTransport, stopTimer, startTimer, changeCursorPosition]

/-- An event that loads a track enables Play and sets `readerSource`; any other event
changes neither. -/
theorem step_playButton_readerSource (createReaderFor : File → Option AudioFormatReader)
    (e : Event) (c c' : MainContentComponent)
    (hs : step createReaderFor e c = some c') :
    (e.loadsTrack createReaderFor = true →
      c'.playButtonEnabled = true ∧ c'.readerSource.isSome = true) ∧
    (e.loadsTrack createReaderFor = false →
      c'.playButtonEnabled = c.playButtonEnabled ∧ c'.readerSource = c.readerSource) := by
  cases e with
  | openResult result =>
      simp only [step, Option.some.injEq] at hs
      subst hs
      by_cases hr : result = File.empty
      · simp [Event.loadsTrack, openButtonClicked, hr]
      · cases hc : createReaderFor result with
        | none => simp [Event.loadsTrack, openButtonClicked, hr, hc]
        | some reader =>
            simp [Event.loadsTrack, openButtonClicked, hr, hc,
              changeState_playButton_readerSource]
  | playClick =>
      simp only [step] at hs
      split at hs
      · simp only [Option.some.injEq] at hs
        subst hs
        unfold playButtonClicked
        simp only [Event.loadsTrack]
        split
        · simp [changeState_playButton_readerSource]
        · split <;> simp [changeState_playButton_readerSource]
      · simp at hs
  | stopClick =>
      simp only [step] at hs
      split at hs
      · simp only [Option.some.injEq] at hs
        subst hs
        unfold stopButtonClicked
        simp only [Event.loadsTrack]
        split <;> simp [changeState_playButton_readerSource]
      · simp at hs
  | change source isPlaying =>
      simp only [step, Option.some.injEq] at hs
      subst hs
      cases source <;> cases isPlaying <;>
        simp [Event.loadsTrack, changeListenerCallback, changeState_playButton_readerSource]
      split
      · simp [changeState_playButton_readerSource]
      · split <;> simp [changeState_playButton_readerSource]
  | timer =>
      simp only [step] at hs
      split at hs
      · simp only [Option.some.injEq] at hs
        subst hs
        simp [Event.loadsTrack, timerCallback, changeCursorPosition]
      · simp at hs

/-- Every event keeps `PlayButtonInv`. -/
theorem playButtonInv_step (createReaderFor : File → Option AudioFormatReader)
    (e : Event) (c c' : MainContentComponent) (h : PlayButtonInv c)
    (hs : step createReaderFor e c = some c') : PlayButtonInv c' := by
  have key := step_playButton_readerSource createReaderFor e c c' hs
  unfold PlayButtonInv at h ⊢
  cases hl : e.loadsTrack createReaderFor with
  | true =>
      obtain ⟨h1, h2⟩ := key.1 hl
      simp [h1, h2]
  | false =>
      obtain ⟨h1, h2⟩ := key.2 hl
      rw [h1, h2]
      exact h

/-- C7: the constructed component has Play disabled and no `readerSource`; the chooser
delivering a file that `createReaderFor` has a reader for enables Play and sets
`readerSource` to that reader; every other event (an empty result, a file without
reader, a button click, a change callback, a timer tick) changes neither; and so in
every reachable state Play is enabled if and only if `readerSource` is set. -/
theorem playButton_iff_readerSource (createReaderFor : File → Option AudioFormatReader) :
    (MainContentComponent.new.playButtonEnabled = false ∧
      MainContentComponent.new.readerSource = none) ∧
    (∀ (result : File) (reader : AudioFormatReader) (c : MainContentComponent),
      result ≠ File.empty → createReaderFor result = some reader →
      (openButtonClicked createReaderFor result c).playButtonEnabled = true ∧
      (openButtonClicked createReaderFor result c).readerSource = some reader) ∧
    (∀ (e : Event) (c c' : MainContentComponent),
      step createReaderFor e c = some c' → e.loadsTrack createReaderFor = false →
      c'.playButtonEnabled = c.playButtonEnabled ∧ c'.readerSource = c.readerSource) ∧
    (∀ c : MainContentComponent, Reachable createReaderFor c →
      (c.playButtonEnabled = true ↔ c.readerSource.isSome = true)) := by
  refine ⟨⟨rfl, rfl⟩, ?_, ?_, ?_⟩
  · intro result reader c hr hc
    simp [openButtonClicked, hr, hc, changeState_playButton_readerSource]
  · intro e c c' hs hl
    exact (step_playButton_readerSource createReaderFor e c c' hs).2 hl
  · rintro c ⟨es, hes⟩
    exact reachable_induction createReaderFor PlayButtonInv
      (playButtonInv_step createReaderFor) es _ c
      (by simp [PlayButtonInv, MainContentComponent.new]) hes

/-- C7 at the component playing `song.wav`: it is reachable, Play is enabled and a
`readerSource` is set. -/
theorem playButton_iff_readerSource_witness :
    Reachable readsAll playing ∧
    (playing.playButtonEnabled = true ↔ playing.readerSource.isSome = true) ∧
    playing.playButtonEnabled = true :=
  ⟨⟨[.openResult songWav, .playClick, .change .transportSource true], by decide⟩,
   (playButton_iff_readerSource readsAll).2.2.2 playing
     ⟨[.openResult songWav, .playClick, .change .transportSource true], by decide⟩,
   by decide⟩

/-! ## Opening without a readable file (C8) -/

/-- C8: when the chooser delivers the empty `File{}` (a cancelled selection) or a file
for which `createReaderFor` returns null, the callback of `openButtonClicked` returns
the component exactly as it was (state, `readerSource`, buttons, timer, calls on the
transport source, everything), and so does any number of repetitions.  The callback
has no result besides the component, so nothing is reported. -/
theorem openButtonClicked_no_reader (createReaderFor : File → Option AudioFormatReader)
    (result : File) (c : MainContentComponent) (n : Nat)
    (h : result = File.empty ∨ createReaderFor result = none) :
    openButtonClicked createReaderFor result c = c ∧
    (openButtonClicked createReaderFor result)^[n] c = c := by
  have one : ∀ d : MainContentComponent, openButtonClicked createReaderFor result d = d := by
    intro d
    rcases h with h | h
    · simp [openButtonClicked, h]
    · simp [openButtonClicked, h]
  refine ⟨one c, ?_⟩
  induction n with
  | zero => rfl
  | succ k ih => rw [Function.iterate_succ_apply, one c, ih]

/-- C8 at the component playing `song.wav`: three selections in a row of a file the
format manager has no reader for. -/
theorem openButtonClicked_no_reader_witness :
    (songWav = File.empty ∨ readsNone songWav = none) ∧
    (openButtonClicked readsNone songWav)^[3] playing = playing :=
  ⟨Or.inr rfl, (openButtonClicked_no_reader readsNone songWav playing 3 (Or.inr rfl)).2⟩

/-! ## The cursor label (C10) -/

/-- On a non-negative double below `2^31` the conversion `(int) x` is defined and is
the floor of `x`. -/
theorem toInt_of_nonneg (x : ℚ) (h0 : 0 ≤ x) (h1 : x < (2 : ℚ) ^ 31) :
    toInt x = some ⌊x⌋ := by
  have hlow : -(2 : ℚ) ^ 31 - 1 < x := by
    have : (0 : ℚ) < (2 : ℚ) ^ 31 := by positivity
    linarith
  have hnum : 0 ≤ x.num := Rat.num_nonneg.mpr h0
  have hden : (0 : Int) ≤ (x.den : Int) := Int.natCast_nonneg _
  simp only [toInt, hlow, h1, and_self, if_true, Rat.floor_def,
    Int.tdiv_eq_ediv hnum hden]

/-- Whole minutes: the floor of a sixtieth is the integer quotient of the floor. -/
theorem floor_div_sixty (x : ℚ) : ⌊x / 60⌋ = ⌊x⌋ / 60 := by
  rw [Int.floor_eq_iff]
  have hle : ((⌊x⌋ : Int) : ℚ) ≤ x := Int.floor_le x
  have hlt : x < ((⌊x⌋ : Int) : ℚ) + 1 := Int.lt_floor_add_one x
  have hd : (⌊x⌋ / 60 : Int) * 60 ≤ ⌊x⌋ := Int.ediv_mul_le _ (by norm_num)
  have hu : ⌊x⌋ < (⌊x⌋ / 60 : Int) * 60 + 60 := by
    have := Int.lt_ediv_add_one_mul_self ⌊x⌋ (by norm_num : (0 : Int) < 60)
    linarith
  have hd' : (((⌊x⌋ / 60 : Int) : ℚ)) * 60 ≤ (⌊x⌋ : ℚ) := by exact_mod_cast hd
  have hu' : ((⌊x⌋ : Int) : ℚ) + 1 ≤ ((⌊x⌋ / 60 : Int) : ℚ) * 60 + 60 := by
    exact_mod_cast hu
  constructor
  · rw [le_div_iff₀ (by norm_num : (0 : ℚ) < 60)]
    linarith
  · rw [div_lt_iff₀ (by norm_num : (0 : ℚ) < 60)]
    linarith

/-- The two fields the code computes from the converted seconds, `(int) x / 60 % 60`
and `(int) x % 60`, at a non-negative double. -/
theorem fields_of_nonneg (x : ℚ) (h0 : 0 ≤ x) :
    Int.tmod (Int.tdiv ⌊x⌋ 60) 60 = ⌊x / 60⌋ % 60 ∧ Int.tmod ⌊x⌋ 60 = ⌊x⌋ % 60 := by
  have hf : 0 ≤ ⌊x⌋ := Int.floor_nonneg.mpr h0
  have hq : 0 ≤ ⌊x⌋ / 60 := Int.ediv_nonneg hf (by norm_num)
  rw [floor_div_sixty, Int.tdiv_eq_ediv hf (by norm_num),
    Int.tmod_eq_emod hq (by norm_num), Int.tmod_eq_emod hf (by norm_num)]
  exact ⟨rfl, rfl⟩

/-- C10: for non-negative seconds below `2^31`, both for the current position and for
the total length, `changeCursorPosition` produces the label text
`minutes:seconds / minutes:seconds` whose minute fields are `floor (s / 60) mod 60` and
whose second fields are `floor s mod 60`. -/
theorem cursorText_fields (cursor_position transport_length : ℚ)
    (hp0 : 0 ≤ cursor_position) (hp1 : cursor_position < (2 : ℚ) ^ 31)
    (ht0 : 0 ≤ transport_length) (ht1 : transport_length < (2 : ℚ) ^ 31) :
    cursorText cursor_position transport_length =
      some (toString (⌊cursor_position / 60⌋ % 60) ++ ":" ++
              toString (⌊cursor_position⌋ % 60) ++ " / " ++
            toString (⌊transport_length / 60⌋ % 60) ++ ":" ++
              toString (⌊transport_length⌋ % 60)) := by
  have hp := fields_of_nonneg cursor_position hp0
  have ht := fields_of_nonneg transport_length ht0
  simp only [cursorText, toInt_of_nonneg cursor_position hp0 hp1,
    toInt_of_nonneg transport_length ht0 ht1, Option.bind_eq_bind, Option.some_bind,
    Option.pure_def, hp.1, hp.2, ht.1, ht.2]

/-- C10 at 125.5 seconds of 3725: the label reads `2:5 / 2:5`, minutes taken modulo
sixty and no field padded. -/
theorem cursorText_fields_witness :
    ((0 : ℚ) ≤ 251 / 2 ∧ (251 / 2 : ℚ) < 2 ^ 31 ∧ (0 : ℚ) ≤ 3725 ∧ (3725 : ℚ) < 2 ^ 31) ∧
    cursorText (251 / 2) 3725 = some "2:5 / 2:5" := by
  refine ⟨⟨by norm_num, by norm_num, by norm_num, by norm_num⟩, ?_⟩
  rw [cursorText_fields (251 / 2) 3725 (by norm_num) (by norm_num) (by norm_num)
    (by norm_num)]
  have h1 : ⌊(251 / 2 : ℚ) / 60⌋ = 2 := by
    rw [Int.floor_eq_iff]; norm_num
  have h2 : ⌊(251 / 2 : ℚ)⌋ = 125 := by
    rw [Int.floor_eq_iff]; norm_num
  have h3 : ⌊(3725 : ℚ) / 60⌋ = 62 := by
    rw [Int.floor_eq_iff]; norm_num
  have h4 : ⌊(3725 : ℚ)⌋ = 3725 := by
    rw [Int.floor_eq_iff]; norm_num
  rw [h1, h2, h3, h4]
  decide

/-! ## The cursor marker (C9) -/

/-- What the code computes: the middle of the marker is at
`getX () + getRight () * (cursor_position / transport_length)`, with the right-hand
edge `getRight () = hgap + w` of the waveform rectangle as the factor. -/
theorem cursorMarkerCentre_eq (l : Layout) (cursor_position transport_length : ℚ)
    (h : transport_length ≠ 0) :
    cursorMarkerCentre l cursor_position transport_length =
      some ((l.hgap : ℚ) + ((l.hgap : ℚ) + (l.w : ℚ)) *
        (cursor_position / transport_length)) := by
  simp [cursorMarkerCentre, cursorMarkerLeft, cursor_position_percent, h, thumbnailBounds,
    Rectangle.getX, Rectangle.getRight]

/-- C9 fails on the code, in the window the constructor sizes (500 by 350, so
`hgap = 10`, `w = 480`, waveform rectangle `(10, 262, 480, 76)`).  At the end of a
track, `cursor_position = transport_length = 10`, the marker is given the bounds
`(498, 262, 4, 76)`: its middle is at x = 500, whereas
`left + width * (currentPosition / totalLength)` is 490, the right-hand edge of the
waveform; the marker is `hgap` pixels beyond the waveform.  Half way through,
`cursor_position = 5`, its middle is at x = 255, whereas the claimed place is 250. -/
theorem cursorMarker_beyond_waveform :
    resized 500 350 = ⟨10, 6, 58, 480, 350⟩ ∧
    thumbnailBounds (resized 500 350) = ⟨10, 262, 480, 76⟩ ∧
    (thumbnailBounds (resized 500 350)).getRight = 490 ∧
    cursorMarkerBounds (resized 500 350) 10 10 = some ⟨498, 262, 4, 76⟩ ∧
    cursorMarkerCentre (resized 500 350) 10 10 = some 500 ∧
    ((thumbnailBounds (resized 500 350)).getX : ℚ) +
      ((thumbnailBounds (resized 500 350)).getWidth : ℚ) * (10 / 10) = 490 ∧
    cursorMarkerCentre (resized 500 350) 5 10 = some 255 ∧
    ((thumbnailBounds (resized 500 350)).getX : ℚ) +
      ((thumbnailBounds (resized 500 350)).getWidth : ℚ) * (5 / 10) = 250 := by
  have hl : resized 500 350 = ⟨10, 6, 58, 480, 350⟩ := by decide
  have hb : thumbnailBounds (resized 500 350) = ⟨10, 262, 480, 76⟩ := by decide
  refine ⟨hl, hb, ?_, ?_, ?_, ?_, ?_, ?_⟩
  · rw [hb]
    decide
  · have hleft : cursorMarkerLeft (resized 500 350) 10 10 = some 498 := by
      simp only [cursorMarkerLeft, cursor_position_percent, hb, Rectangle.getX,
        Rectangle.getRight]
      norm_num
    have hint : toInt 498 = some 498 := by
      rw [toInt_of_nonneg 498 (by norm_num) (by norm_num)]
      norm_num
    simp [cursorMarkerBounds, hleft, hint, hb, Rectangle.getY, Rectangle.getHeight]
  · rw [cursorMarkerCentre_eq _ _ _ (by norm_num), hl]
    norm_num
  · rw [hb]
    norm_num [Rectangle.getX, Rectangle.getWidth]
  · rw [cursorMarkerCentre_eq _ _ _ (by norm_num), hl]
    norm_num
  · rw [hb]
    norm_num [Rectangle.getX, Rectangle.getWidth]

end SoundFilePlayer
